import Mathlib

/-!
Shallow embedding of `run_platform_analysis.py`.

The program builds a fixed in-memory dataset describing three e-commerce
platforms and prints a formatted report to standard output.  We model the
output as a `List String` of printed lines (each `print` call contributes
its text split at newlines), parameterised by the timestamp string `ts`
that the script reads from the wall clock.
-/

/-- A status tab: display name, optional item count, active flag. -/
structure StatusTab where
  name : String
  count : Option Nat
  active : Bool
deriving DecidableEq, Repr

/-- The per-platform record: status tabs, column count, feature list. -/
structure PlatformData where
  status_tabs : List StatusTab
  table_columns : Nat
  unique_features : List String
deriving DecidableEq, Repr

/-- The N11 entry of `platforms_data`. -/
def n11 : PlatformData :=
  { status_tabs :=
      [ { name := "Tüm Ürünler", count := some 5376, active := false },
        { name := "Satıştakiler", count := some 4776, active := true },
        { name := "Tükenen Ürünler", count := some 598, active := false },
        { name := "Satışta Olmayanlar", count := some 0, active := false },
        { name := "Aksiyon Bekleyenler", count := some 0, active := false },
        { name := "Katalogdan Reddedilenler", count := some 1, active := false },
        { name := "Katalog Onayı Bekleyenler", count := some 1, active := false } ],
    table_columns := 14,
    unique_features :=
      [ "7 distinct product status categories",
        "Advanced table customization (Tabloyu Özelleştir)",
        "CSS variable-based column sizing",
        "Commission rate display in product info",
        "GTIN barcode integration with tooltips",
        "Inline popover editing system",
        "Sophisticated catalog approval workflow" ] }

/-- The Hepsiburada entry of `platforms_data`. -/
def hepsiburada : PlatformData :=
  { status_tabs :=
      [ { name := "Tümü", count := some 1, active := false },
        { name := "Satışta", count := none, active := false },
        { name := "Satışa kapalı", count := none, active := false },
        { name := "Kilitli", count := some 1, active := false } ],
    table_columns := 12,
    unique_features :=
      [ "Buybox position tracking",
        "Competitive price monitoring",
        "30-day price history",
        "Product information quality scoring",
        "Data quality alerts",
        "Dynamic filter addition system",
        "Advanced search with multiple criteria" ] }

/-- The Trendyol entry of `platforms_data`. -/
def trendyol : PlatformData :=
  { status_tabs :=
      [ { name := "Tümü", count := none, active := true },
        { name := "Aktif", count := none, active := false },
        { name := "Pasif", count := none, active := false },
        { name := "Stokta Yok", count := none, active := false } ],
    table_columns := 15,
    unique_features :=
      [ "Variant management system",
        "Product completion percentage",
        "Delivery time tracking",
        "Grid/Table view toggle",
        "Table settings modal (our implementation)",
        "Advanced filter panel" ] }

/-- The platforms_data dictionary, as an association list in insertion
(= iteration) order. -/
def platforms_data : List (String × PlatformData) :=
  [("N11", n11), ("Hepsiburada", hepsiburada), ("Trendyol", trendyol)]

/-- The recommendations dictionary, in insertion order. -/
def recommendations : List (String × List String) :=
  [ ("🟢 HIGH PRIORITY",
      [ "✅ Table Settings Modal (Already implemented!)",
        "🔄 Advanced Status Tab System (N11\x27s 7-category model)",
        "📊 Data Quality Scoring (Hepsiburada pattern)",
        "⚡ Enhanced Bulk Operations" ]),
    ("🟡 MEDIUM PRIORITY",
      [ "💰 Competitive Price Tracking",
        "📈 Product Completion Percentage",
        "🏷️ Commission Display Integration",
        "🔍 Dynamic Filter Addition" ]),
    ("🔴 FUTURE ENHANCEMENTS",
      [ "🎨 CSS Variable-based Column Sizing",
        "📊 Buybox Position Tracking",
        "🔔 Data Quality Alerts",
        "📋 Catalog Approval Workflows" ]) ]

/-- The upper method of Python strings on the (ASCII) platform names: uppercase each
character. -/
def pyUpper (s : String) : String := String.mk (s.data.map Char.toUpper)

/-- The sixty-character equals-sign rule used as a banner separator. -/
def eq60 : String := String.mk (List.replicate 60 '=')

/-- The forty-character dash rule used as a section separator. -/
def dash40 : String := String.mk (List.replicate 40 '-')

/-- The name of the first tab whose active flag is true, else the literal
string None (the next-with-default generator expression in the script). -/
def activeTabName (tabs : List StatusTab) : String :=
  match tabs.find? (fun tab => tab.active) with
  | some tab => tab.name
  | none => "None"

/-- The ACTIVE marker: the bracketed tag for an active tab, empty otherwise. -/
def activeMarker (tab : StatusTab) : String :=
  if tab.active then "[ACTIVE]" else ""

/-- The count string: the decimal count in parentheses when present, the
dash marker in parentheses when the count is absent. -/
def renderCount (c : Option Nat) : String :=
  match c with
  | some n => "(" ++ toString n ++ ")"
  | none => "(-)"

/-- The bullet line printed for one status tab: indent, bullet, name,
count string, and active marker. -/
def tabLine (tab : StatusTab) : String :=
  "      • " ++ tab.name ++ " " ++ renderCount tab.count ++ " " ++ activeMarker tab

/-- The lines printed for one platform in the status-tab analysis loop:
platform header, total categories, active tab, then one line per tab. -/
def platformStatusBlock (name : String) (tabs : List StatusTab) : List String :=
  [ "",
    "🏢 " ++ pyUpper name ++ ":",
    "   Total Categories: " ++ toString tabs.length,
    "   Active Tab: " ++ activeTabName tabs ]
  ++ tabs.map tabLine

/-- The status-tab analysis section, over a dataset `d`. -/
def statusSectionOf (d : List (String × PlatformData)) : List String :=
  ["", "📊 STATUS TAB ANALYSIS", dash40]
  ++ d.flatMap (fun p => platformStatusBlock p.1 p.2.status_tabs)

/-- The enumerated feature lines: 1-based index, a dot, then the feature. -/
def featureLines (features : List String) : List String :=
  features.enum.map (fun q => "   " ++ toString (q.1 + 1) ++ ". " ++ q.2)

/-- The lines printed for one platform in the feature-analysis loop. -/
def platformFeatureBlock (name : String) (features : List String) : List String :=
  ["", "🏢 " ++ pyUpper name ++ ":"] ++ featureLines features

/-- The feature analysis section, over a dataset `d`. -/
def featureSectionOf (d : List (String × PlatformData)) : List String :=
  ["", "💡 UNIQUE FEATURES & INNOVATIONS", dash40]
  ++ d.flatMap (fun p => platformFeatureBlock p.1 p.2.unique_features)

/-- The fixed key-insights block. -/
def insightLines : List String :=
  [ "",
    "🎯 KEY INSIGHTS",
    dash40,
    "✅ N11 has the most sophisticated status management (7 categories)",
    "💰 Hepsiburada leads in competitive intelligence features",
    "📊 All platforms prioritize table customization",
    "🔄 Our implementation aligns with industry standards",
    "🚀 Table Settings Modal matches N11/Hepsiburada patterns" ]

/-- One recommendation block: blank line, category label with a colon,
then one indented line per item. -/
def recommendationBlock (category : String) (items : List String) : List String :=
  ["", category ++ ":"] ++ items.map (fun item => "   " ++ item)

/-- The implementation-recommendations section over a recommendations list. -/
def recommendationSectionOf (recs : List (String × List String)) : List String :=
  ["", "🚀 IMPLEMENTATION RECOMMENDATIONS", dash40]
  ++ recs.flatMap (fun p => recommendationBlock p.1 p.2)

/-- The closing banner lines. -/
def footerLines : List String :=
  [ "",
    eq60,
    "🏆 ANALYSIS COMPLETE",
    "✨ Our table settings implementation is industry-standard!",
    "🎯 Next focus: Advanced status management system",
    eq60 ]

/-- The header: title banner and the Analysis Date line with timestamp `ts`. -/
def headerLines (ts : String) : List String :=
  [ "🚀 TURKISH E-COMMERCE PLATFORM ANALYSIS",
    eq60,
    "Analysis Date: " ++ ts,
    eq60 ]

/-- The whole report over an arbitrary platform dataset `d` (the section
sequence of `analyze_platforms`, with the data as a parameter). -/
def outputOf (ts : String) (d : List (String × PlatformData)) : List String :=
  headerLines ts ++ statusSectionOf d ++ featureSectionOf d
  ++ insightLines ++ recommendationSectionOf recommendations ++ footerLines

/-- The function analyze_platforms of the script: the full report on the
embedded dataset, as the list of printed lines, with the wall-clock
timestamp as parameter `ts`. -/
def analyze_platforms (ts : String) : List String :=
  outputOf ts platforms_data

/-- Everything after the four header lines: all of it independent of `ts`. -/
def restLines : List String :=
  statusSectionOf platforms_data ++ featureSectionOf platforms_data
  ++ insightLines ++ recommendationSectionOf recommendations ++ footerLines

/-! ### Structural helper lemmas -/

/-- The report is the header followed by the timestamp-independent remainder. -/
theorem output_eq_header_append (ts : String) :
    analyze_platforms ts = headerLines ts ++ restLines := by
  simp [analyze_platforms, outputOf, restLines, List.append_assoc]

/-- Lines of the remainder occur in the report, whatever the timestamp. -/
theorem mem_output_of_mem_restLines (ts : String) (l : String) (h : l ∈ restLines) :
    l ∈ analyze_platforms ts := by
  rw [output_eq_header_append]
  exact List.mem_append_right _ h

/-- The report as a cons-list: the timestamp line is the third line (index 2). -/
theorem output_cons_form (ts : String) :
    analyze_platforms ts
      = "🚀 TURKISH E-COMMERCE PLATFORM ANALYSIS" :: eq60
        :: ("Analysis Date: " ++ ts) :: eq60 :: restLines := by
  rw [output_eq_header_append]
  rfl

/-- An inactive head tab does not affect the selected active tab. -/
theorem activeTabName_cons_inactive (u : StatusTab) (l : List StatusTab)
    (hu : u.active = false) : activeTabName (u :: l) = activeTabName l := by
  simp [activeTabName, List.find?_cons, hu]

/-- The digit characters of number rendering never include the dash. -/
theorem digitChar_ne_dash (m : Nat) : Nat.digitChar m ≠ '-' := by
  rcases Nat.lt_or_ge m 16 with hm | hm
  · interval_cases m <;> decide
  · have hne : ∀ k : Nat, k < 16 → ¬ (m = k) := fun k hk => by omega
    have h16 : Nat.digitChar m = '*' := by simp [Nat.digitChar, hne]
    rw [h16]
    decide

/-- The digit accumulator of number rendering introduces no dash character. -/
theorem dash_mem_toDigitsCore (fuel n : Nat) (ds : List Char)
    (h : '-' ∈ Nat.toDigitsCore 10 fuel n ds) : '-' ∈ ds := by
  induction fuel generalizing n ds with
  | zero => simpa [Nat.toDigitsCore] using h
  | succ fuel ih =>
      rw [Nat.toDigitsCore] at h
      split at h
      · rcases List.mem_cons.mp h with h1 | h1
        · exact absurd h1.symm (digitChar_ne_dash _)
        · exact h1
      · rcases List.mem_cons.mp (ih _ _ h) with h1 | h1
        · exact absurd h1.symm (digitChar_ne_dash _)
        · exact h1

/-- The decimal representation of a natural number contains no dash. -/
theorem dash_not_mem_repr (n : Nat) : '-' ∉ (Nat.repr n).data := by
  intro h
  have h2 : '-' ∈ ([] : List Char) :=
    dash_mem_toDigitsCore (n + 1) n []
      (by simpa [Nat.repr, Nat.toDigits, List.asString] using h)
  simp at h2

/-- A present count never renders as the absent marker. -/
theorem renderCount_some_ne (n : Nat) : renderCount (some n) ≠ "(-)" := by
  intro h
  have hmem : '-' ∈ (renderCount (some n)).data := by rw [h]; decide
  simp only [renderCount] at hmem
  rw [String.data_append, String.data_append] at hmem
  rcases List.mem_append.mp hmem with h1 | h1
  · rcases List.mem_append.mp h1 with h2 | h2
    · exact absurd h2 (by decide)
    · exact dash_not_mem_repr n h2
  · exact absurd h1 (by decide)

/-- Congruence for flatMap through a projection of the elements. -/
theorem flatMap_congr_of_map_eq {α β γ : Type} (f : α → β) (F : α → List γ)
    (H : ∀ a b, f a = f b → F a = F b) :
    ∀ l1 l2 : List α, l1.map f = l2.map f → l1.flatMap F = l2.flatMap F := by
  intro l1
  induction l1 with
  | nil =>
      intro l2 h
      cases l2 with
      | nil => rfl
      | cons b m => simp at h
  | cons a l ih =>
      intro l2 h
      cases l2 with
      | nil => simp at h
      | cons b m =>
          simp only [List.map_cons, List.cons.injEq] at h
          simp only [List.flatMap_cons]
          rw [H a b h.1, ih m h.2]

/-! ### The claims -/

/-- C1: for every platform, the printed Active Tab value is the name of the
first status tab (in list order) whose active flag is true, or the literal
string None when no tab is active; on the embedded data the three values
are Satıştakiler, None and Tümü, and each printed Active Tab line occurs in
the report. -/
theorem claim1_active_tab :
    (∀ (pre : List StatusTab) (t : StatusTab) (post : List StatusTab),
        t.active = true → (∀ u ∈ pre, u.active = false) →
        activeTabName (pre ++ t :: post) = t.name)
  ∧ (∀ tabs : List StatusTab, (∀ u ∈ tabs, u.active = false) →
        activeTabName tabs = "None")
  ∧ platforms_data.map (fun p => activeTabName p.2.status_tabs)
      = ["Satıştakiler", "None", "Tümü"]
  ∧ ∀ ts : String, ∀ p ∈ platforms_data,
      ("   Active Tab: " ++ activeTabName p.2.status_tabs) ∈ analyze_platforms ts := by
  refine ⟨?_, ?_, by decide, ?_⟩
  · intro pre t post ht hpre
    induction pre with
    | nil => simp [activeTabName, List.find?_cons, ht]
    | cons u us ih =>
        have hu : u.active = false := hpre u (List.mem_cons_self u us)
        rw [List.cons_append, activeTabName_cons_inactive u _ hu]
        exact ih (fun v hv => hpre v (List.mem_cons_of_mem u hv))
  · intro tabs h
    have hn : tabs.find? (fun tab => tab.active) = none := by
      rw [List.find?_eq_none]
      intro x hx
      simp [h x hx]
    simp [activeTabName, hn]
  · intro ts p hp
    exact mem_output_of_mem_restLines ts _
      ((by decide : ∀ q ∈ platforms_data,
          ("   Active Tab: " ++ activeTabName q.2.status_tabs) ∈ restLines) p hp)

/-- Witness for C1 at concrete inputs. -/
theorem claim1_active_tab_inst :
    activeTabName [{ name := "Aktif", count := some 3, active := true }] = "Aktif"
  ∧ activeTabName [] = "None" := by
  constructor
  · exact claim1_active_tab.1 [] { name := "Aktif", count := some 3, active := true } []
      rfl (by simp)
  · exact claim1_active_tab.2.1 [] (by simp)

/-- C2: every rendered status-tab line prints the count as the decimal
value in parentheses when the count is a number, and as a parenthesised
dash when the count is absent; every tab of the embedded dataset is
rendered in the report. -/
theorem claim2_count_render :
    (∀ (tab : StatusTab) (n : Nat), tab.count = some n →
        tabLine tab = "      • " ++ tab.name ++ " " ++ ("(" ++ toString n ++ ")") ++ " "
          ++ activeMarker tab)
  ∧ (∀ tab : StatusTab, tab.count = none →
        tabLine tab = "      • " ++ tab.name ++ " " ++ "(-)" ++ " " ++ activeMarker tab)
  ∧ ∀ ts : String, ∀ p ∈ platforms_data, ∀ tab ∈ p.2.status_tabs,
      tabLine tab ∈ analyze_platforms ts := by
  refine ⟨?_, ?_, ?_⟩
  · intro tab n h
    simp only [tabLine, renderCount, h]
  · intro tab h
    simp only [tabLine, renderCount, h]
  · intro ts p hp tab htab
    exact mem_output_of_mem_restLines ts _
      ((by decide : ∀ q ∈ platforms_data, ∀ tab ∈ q.2.status_tabs,
          tabLine tab ∈ restLines) p hp tab htab)

/-- Witness for C2 at a concrete tab. -/
theorem claim2_count_render_inst :
    tabLine { name := "Kilitli", count := some 1, active := false }
      = "      • " ++ "Kilitli" ++ " " ++ ("(" ++ toString 1 ++ ")") ++ " "
        ++ activeMarker { name := "Kilitli", count := some 1, active := false } :=
  claim2_count_render.1 { name := "Kilitli", count := some 1, active := false } 1 rfl

/-- C3: the printed Total Categories number is the length of the status-tab
list; on the embedded data the three lengths are 7, 4 and 4, and each
Total Categories line occurs in the report. -/
theorem claim3_total_categories :
    (∀ (name : String) (tabs : List StatusTab),
        (platformStatusBlock name tabs)[2]?
          = some ("   Total Categories: " ++ toString tabs.length))
  ∧ platforms_data.map (fun p => p.2.status_tabs.length) = [7, 4, 4]
  ∧ ∀ ts : String, ∀ p ∈ platforms_data,
      ("   Total Categories: " ++ toString p.2.status_tabs.length)
        ∈ analyze_platforms ts := by
  refine ⟨fun name tabs => rfl, by decide, ?_⟩
  intro ts p hp
  exact mem_output_of_mem_restLines ts _
    ((by decide : ∀ q ∈ platforms_data,
        ("   Total Categories: " ++ toString q.2.status_tabs.length) ∈ restLines) p hp)

/-- Witness for C3 at the N11 platform. -/
theorem claim3_total_categories_inst :
    ("   Total Categories: " ++ toString n11.status_tabs.length)
      ∈ analyze_platforms "2025-01-01 00:00" :=
  claim3_total_categories.2.2 "2025-01-01 00:00" ("N11", n11) (by decide)

/-- C4: the feature-analysis section prints each platform feature list
fully, one line per feature, in original order, with 1-based sequential
numbering; every feature line of the embedded data occurs in the report. -/
theorem claim4_feature_list :
    (∀ features : List String, (featureLines features).length = features.length)
  ∧ (∀ (features : List String) (i : Nat) (f : String), features[i]? = some f →
        (featureLines features)[i]? = some ("   " ++ toString (i + 1) ++ ". " ++ f))
  ∧ ∀ ts : String, ∀ p ∈ platforms_data, ∀ l ∈ featureLines p.2.unique_features,
      l ∈ analyze_platforms ts := by
  refine ⟨?_, ?_, ?_⟩
  · intro features
    simp [featureLines]
  · intro features i f h
    simp [featureLines, List.getElem?_map, List.getElem?_enum, h]
  · intro ts p hp l hl
    exact mem_output_of_mem_restLines ts _
      ((by decide : ∀ q ∈ platforms_data, ∀ l ∈ featureLines q.2.unique_features,
          l ∈ restLines) p hp l hl)

/-- Witness for C4 at a concrete two-element feature list. -/
theorem claim4_feature_list_inst :
    (featureLines ["a", "b"])[1]? = some ("   " ++ toString (1 + 1) ++ ". " ++ "b") :=
  claim4_feature_list.2.1 ["a", "b"] 1 "b" rfl

/-- C5: the recommendations section prints exactly the three category
blocks in the fixed order high, medium, future, each block holding all of
the items of that category in list order; the section equals the explicit
line list below and each of its lines occurs in the report. -/
theorem claim5_recommendations :
    recommendations.map Prod.fst
      = ["🟢 HIGH PRIORITY", "🟡 MEDIUM PRIORITY", "🔴 FUTURE ENHANCEMENTS"]
  ∧ recommendationSectionOf recommendations
      = [ "", "🚀 IMPLEMENTATION RECOMMENDATIONS", dash40,
          "", "🟢 HIGH PRIORITY:",
          "   ✅ Table Settings Modal (Already implemented!)",
          "   🔄 Advanced Status Tab System (N11\x27s 7-category model)",
          "   📊 Data Quality Scoring (Hepsiburada pattern)",
          "   ⚡ Enhanced Bulk Operations",
          "", "🟡 MEDIUM PRIORITY:",
          "   💰 Competitive Price Tracking",
          "   📈 Product Completion Percentage",
          "   🏷️ Commission Display Integration",
          "   🔍 Dynamic Filter Addition",
          "", "🔴 FUTURE ENHANCEMENTS:",
          "   🎨 CSS Variable-based Column Sizing",
          "   📊 Buybox Position Tracking",
          "   🔔 Data Quality Alerts",
          "   📋 Catalog Approval Workflows" ]
  ∧ (∀ p ∈ recommendations,
        ∀ item ∈ p.2, ("   " ++ item) ∈ recommendationSectionOf recommendations)
  ∧ ∀ ts : String, ∀ l ∈ recommendationSectionOf recommendations,
      l ∈ analyze_platforms ts := by
  refine ⟨by decide, by decide, by decide, ?_⟩
  intro ts l hl
  exact mem_output_of_mem_restLines ts _
    ((by decide : ∀ m ∈ recommendationSectionOf recommendations, m ∈ restLines) l hl)

/-- Witness for C5 at a concrete medium-priority item. -/
theorem claim5_recommendations_inst :
    ("   " ++ "💰 Competitive Price Tracking") ∈ recommendationSectionOf recommendations :=
  claim5_recommendations.2.2.1
    ("🟡 MEDIUM PRIORITY",
      [ "💰 Competitive Price Tracking",
        "📈 Product Completion Percentage",
        "🏷️ Commission Display Integration",
        "🔍 Dynamic Filter Addition" ])
    (by decide) "💰 Competitive Price Tracking" (by decide)

/-- C6: the status-tab section and the feature section enumerate the
platforms in the same fixed order N11, Hepsiburada, Trendyol: the platform
header lines of both sections, in order, are exactly the three uppercased
platform names of the dataset in dataset order. -/
theorem claim6_platform_order :
    platforms_data.map Prod.fst = ["N11", "Hepsiburada", "Trendyol"]
  ∧ (statusSectionOf platforms_data).filter
        (fun l => decide (l.data.take 2 = "🏢 ".data))
      = ["🏢 N11:", "🏢 HEPSIBURADA:", "🏢 TRENDYOL:"]
  ∧ (featureSectionOf platforms_data).filter
        (fun l => decide (l.data.take 2 = "🏢 ".data))
      = ["🏢 N11:", "🏢 HEPSIBURADA:", "🏢 TRENDYOL:"]
  ∧ ["🏢 N11:", "🏢 HEPSIBURADA:", "🏢 TRENDYOL:"]
      = platforms_data.map (fun p => "🏢 " ++ pyUpper p.1 ++ ":") := by
  exact ⟨by decide, by decide, by decide, by decide⟩

/-- C7: the report consists of the header, the status-tab analysis, the
feature analysis, the insights, the recommendations and the footer, in
this fixed sequence, for every timestamp; the leading line of every
section is the expected banner line. -/
theorem claim7_section_order : ∀ ts : String,
    analyze_platforms ts
      = headerLines ts ++ statusSectionOf platforms_data
        ++ featureSectionOf platforms_data ++ insightLines
        ++ recommendationSectionOf recommendations ++ footerLines
  ∧ (headerLines ts)[0]? = some "🚀 TURKISH E-COMMERCE PLATFORM ANALYSIS"
  ∧ (headerLines ts)[2]? = some ("Analysis Date: " ++ ts)
  ∧ (statusSectionOf platforms_data)[1]? = some "📊 STATUS TAB ANALYSIS"
  ∧ (featureSectionOf platforms_data)[1]? = some "💡 UNIQUE FEATURES & INNOVATIONS"
  ∧ insightLines[1]? = some "🎯 KEY INSIGHTS"
  ∧ (recommendationSectionOf recommendations)[1]?
      = some "🚀 IMPLEMENTATION RECOMMENDATIONS"
  ∧ footerLines[2]? = some "🏆 ANALYSIS COMPLETE" := by
  intro ts
  exact ⟨rfl, rfl, rfl, by decide, by decide, by decide, by decide, by decide⟩

/-- Witness for C7 at a concrete timestamp. -/
theorem claim7_section_order_inst :
    analyze_platforms "2025-02-02 12:00"
      = headerLines "2025-02-02 12:00" ++ statusSectionOf platforms_data
        ++ featureSectionOf platforms_data ++ insightLines
        ++ recommendationSectionOf recommendations ++ footerLines :=
  (claim7_section_order "2025-02-02 12:00").1

/-- C8: two runs of the report generator produce line-for-line identical
output except possibly at index 2, the timestamp line of the header: the
lengths agree, line 2 carries the timestamp, and every other line is
independent of the timestamp. -/
theorem claim8_timestamp_determinism (a b : String) :
    (analyze_platforms a).length = (analyze_platforms b).length
  ∧ (analyze_platforms a)[2]? = some ("Analysis Date: " ++ a)
  ∧ (analyze_platforms b)[2]? = some ("Analysis Date: " ++ b)
  ∧ ∀ i : Nat, i ≠ 2 → (analyze_platforms a)[i]? = (analyze_platforms b)[i]? := by
  refine ⟨?_, ?_, ?_, ?_⟩
  · rw [output_cons_form a, output_cons_form b]
    simp
  · rw [output_cons_form a]
    rfl
  · rw [output_cons_form b]
    rfl
  · intro i hi
    rw [output_cons_form a, output_cons_form b]
    obtain _ | _ | _ | n := i
    · rfl
    · rfl
    · exact absurd rfl hi
    · rfl

/-- Witness for C8 at two concrete timestamps and a non-timestamp index. -/
theorem claim8_timestamp_determinism_inst :
    (analyze_platforms "2025-01-01 10:00")[0]?
      = (analyze_platforms "2025-06-30 23:59")[0]? :=
  (claim8_timestamp_determinism "2025-01-01 10:00" "2025-06-30 23:59").2.2.2 0 (by decide)

/-- C9: a status tab with count 0 renders as a parenthesised 0, not as the
absent marker; the absent marker occurs exactly when the count is absent,
and the two zero-count N11 lines occur in the report. -/
theorem claim9_zero_count :
    renderCount (some 0) = "(0)"
  ∧ (∀ c : Option Nat, renderCount c = "(-)" ↔ c = none)
  ∧ tabLine { name := "Satışta Olmayanlar", count := some 0, active := false }
      = "      • Satışta Olmayanlar (0) "
  ∧ ∀ ts : String,
      ("      • Satışta Olmayanlar (0) ") ∈ analyze_platforms ts
      ∧ ("      • Aksiyon Bekleyenler (0) ") ∈ analyze_platforms ts := by
  refine ⟨by decide, ?_, by decide, ?_⟩
  · intro c
    cases c with
    | none => simp [renderCount]
    | some n => exact ⟨fun h => absurd h (renderCount_some_ne n),
        fun h => Option.noConfusion h⟩
  · intro ts
    exact ⟨mem_output_of_mem_restLines ts _ (by decide),
      mem_output_of_mem_restLines ts _ (by decide)⟩

/-- Witness for C9: the absent marker appears exactly for the absent count. -/
theorem claim9_zero_count_inst : renderCount none = "(-)" :=
  (claim9_zero_count.2.1 none).mpr rfl

/-- C10: the table-columns field never influences the output: two datasets
that agree on names, status tabs and feature lists (and hence may differ
arbitrarily in their table-columns values) produce identical reports. -/
theorem claim10_table_columns_noninterference (ts : String)
    (d1 d2 : List (String × PlatformData))
    (h : d1.map (fun p => (p.1, p.2.status_tabs, p.2.unique_features))
       = d2.map (fun p => (p.1, p.2.status_tabs, p.2.unique_features))) :
    outputOf ts d1 = outputOf ts d2 := by
  have hs : statusSectionOf d1 = statusSectionOf d2 := by
    unfold statusSectionOf
    congr 1
    refine flatMap_congr_of_map_eq _ _ ?_ d1 d2 h
    intro a b hab
    simp only [Prod.mk.injEq] at hab
    rw [hab.1, hab.2.1]
  have hf : featureSectionOf d1 = featureSectionOf d2 := by
    unfold featureSectionOf
    congr 1
    refine flatMap_congr_of_map_eq _ _ ?_ d1 d2 h
    intro a b hab
    simp only [Prod.mk.injEq] at hab
    rw [hab.1, hab.2.2]
  unfold outputOf
  rw [hs, hf]

/-- Witness for C10: changing the N11 column count from 14 to 999 leaves
the report unchanged. -/
theorem claim10_table_columns_noninterference_inst :
    outputOf "2025-01-01 00:00"
        [ ("N11", { n11 with table_columns := 999 }),
          ("Hepsiburada", hepsiburada), ("Trendyol", trendyol) ]
      = outputOf "2025-01-01 00:00" platforms_data :=
  claim10_table_columns_noninterference "2025-01-01 00:00" _ _ (by decide)
